import Mathlib

/-!
Shallow embedding of the subscription-activation webhook handler
(src/index.ts) of the Pay-lockr2 repository.

The handler is a single linear orchestration: parse query parameters,
verify the payment with the gateway, look up the pending subscription,
resolve or create the user, then perform four datastore writes and
return a JSON response.  All external collaborators (the gateway, the
datastore, the account-provisioning service, the wall clock) are
modelled as inputs packaged in a `World` record: each field is the
result the corresponding external call would return during this
invocation.  The handler itself is a pure function from the request and
the world to a `Response` together with an `Effects` trace recording
which external calls were made and which writes were attempted, in
order.  Environment variables (datastore URL, credentials) only
parameterise the external calls and carry no logic, so they are not
modelled.  The `transaction_id` query parameter only selects which
gateway record is verified; the verification response itself is the
`gateway` field of the world.
-/

namespace PayLockr

/-- CORS headers attached to responses (src/index.ts lines 5-8). -/
def corsHeaders : List (String × String) :=
  [("Access-Control-Allow-Origin", "*"),
   ("Access-Control-Allow-Headers", "authorization, x-client-info, apikey, content-type")]

/-- Headers of the success and failure JSON responses:
`{'Content-Type': 'application/json', ...corsHeaders}`. -/
def jsonHeaders : List (String × String) :=
  ("Content-Type", "application/json") :: corsHeaders

/-- JavaScript truthiness of a nullable string: `null`/`undefined` and
the empty string are falsy (`!txRef`, `paymentData.meta?.plan_type ||`,
`!userId` in the source). -/
def jsTruthy : Option String → Bool
  | none => false
  | some s => s ≠ ""

/-- `a || b` on a nullable string, as JavaScript evaluates it. -/
def jsOrString (a : Option String) (b : String) : String :=
  match a with
  | some s => if s = "" then b else s
  | none => b

/-- Pending-account payload embedded in the payment metadata
(`paymentData.meta?.pending_user_data`); only its `password` field is
read by the handler. -/
structure PendingUserData where
  password : String
deriving Repr, DecidableEq

/-- `paymentData.customer` of the gateway verification response. -/
structure Customer where
  email : String
  name : String
deriving Repr, DecidableEq

/-- `paymentData.meta` of the gateway verification response; every
field is optional. -/
structure Meta where
  plan_type : Option String
  is_trial : Option Bool
  pending_user_data : Option PendingUserData
deriving Repr, DecidableEq

/-- `verificationResult.data`: the per-transaction payment record. -/
structure PaymentData where
  status : String
  customer : Customer
  meta : Option Meta
  id : Option Nat
  amount : ℚ
  currency : String
  payment_type : String
deriving Repr, DecidableEq

/-- The JSON body of the gateway verify-by-id response
(`verificationResult`). -/
structure VerificationResult where
  status : String
  data : PaymentData
deriving Repr, DecidableEq

/-- The subscription row returned by the datastore lookup. -/
structure Subscription where
  id : String
  user_id : Option String
  plan_type : String
deriving Repr, DecidableEq

/-- The incoming HTTP request: method and the three query parameters
the handler reads. -/
structure Request where
  method : String
  tx_ref : Option String
  status : Option String
  transaction_id : Option String
deriving Repr, DecidableEq

/-- Results of the external calls during one invocation.  `subError`
and `subData` are the `{error, data}` pair of the `.single()`
subscription lookup (`.single()` reports an error on zero or multiple
matching rows as well as on query failure); `createUserError` and
`createUserId` are the `{error, data}` pair of account provisioning;
the `...Ok` booleans say whether each write succeeds (its `error` is
null); `now` is the wall-clock timestamp string. -/
structure World where
  gateway : VerificationResult
  subError : Bool
  subData : Option Subscription
  createUserError : Bool
  createUserId : String
  updateSubscriptionOk : Bool
  updateProfileOk : Bool
  insertTransactionOk : Bool
  insertNotificationOk : Bool
  now : String
deriving Repr, DecidableEq

/-- Payload of `auth.admin.createUser` (src/index.ts lines 89-96). -/
structure UserCreate where
  email : String
  password : String
  email_confirm : Bool
  full_name : String
deriving Repr, DecidableEq

/-- Payload of the subscription update (src/index.ts lines 116-124);
`subscription_id` is the `.eq` match key. -/
structure SubscriptionUpdate where
  subscription_id : String
  user_id : String
  status : String
  flutterwave_subscription_id : Option String
  updated_at : String
deriving Repr, DecidableEq

/-- Payload of the profile update (src/index.ts lines 132-139);
`profile_id` is the `.eq` match key. -/
structure ProfileUpdate where
  profile_id : String
  plan_type : String
  subscription_status : String
  updated_at : String
deriving Repr, DecidableEq

/-- Property names every plain object literal inherits from
`Object.prototype` in the JavaScript runtime.  Bracket access such as
`feeRates[planType]` finds these even though they are not own keys of
the literal; each is a function (or, for `__proto__`, the prototype
object itself), hence truthy. -/
def objectPrototypeKeys : List String :=
  ["constructor", "hasOwnProperty", "isPrototypeOf", "propertyIsEnumerable",
   "toLocaleString", "toString", "valueOf", "__defineGetter__",
   "__defineSetter__", "__lookupGetter__", "__lookupSetter__", "__proto__"]

/-- A JavaScript value the fee-rate lookup can produce: a number from
the table's own keys (or the default), or a member inherited from
`Object.prototype` — a truthy non-number, so `|| 0.05` does not replace
it. -/
inductive JsFeeRate where
  | num : ℚ → JsFeeRate
  | protoMember : String → JsFeeRate
deriving Repr, DecidableEq

/-- Row inserted into the transactions table (src/index.ts
lines 147-160). -/
structure TransactionRow where
  user_id : String
  flutterwave_tx_ref : String
  flutterwave_tx_id : Option String
  amount : ℚ
  currency : String
  status : String
  customer_email : String
  customer_name : String
  payment_method : String
  plan_fee_rate : JsFeeRate
deriving Repr, DecidableEq

/-- The `metadata` object of the notification row. -/
structure NotificationMetadata where
  plan_type : String
  subscription_id : String
  is_trial : Bool
deriving Repr, DecidableEq

/-- Row inserted into the notifications table (src/index.ts
lines 168-182). -/
structure NotificationRow where
  user_id : String
  type : String
  title : String
  message : String
  metadata : NotificationMetadata
deriving Repr, DecidableEq

/-- One attempted external mutation, in the order the handler issues
them. -/
inductive Write where
  | createUserW : UserCreate → Write
  | subscriptionUpdate : SubscriptionUpdate → Write
  | profileUpdate : ProfileUpdate → Write
  | transactionInsert : TransactionRow → Write
  | notificationInsert : NotificationRow → Write
deriving Repr, DecidableEq

/-- Trace of the invocation: whether the gateway verification call was
made, whether the subscription lookup was performed, and the attempted
writes in order. -/
structure Effects where
  verifyCalled : Bool
  lookupPerformed : Bool
  writes : List Write
deriving Repr, DecidableEq

/-- JSON body of the success response (src/index.ts lines 191-198). -/
structure SuccessBody where
  success : Bool
  subscription_id : String
  user_id : String
  plan_type : String
  is_trial : Bool
  message : String
deriving Repr, DecidableEq

/-- Body of a handler response: empty (preflight), plain text (405),
the success JSON, or the failure JSON `{error, details}`. -/
inductive Body where
  | empty : Body
  | text : String → Body
  | successJson : SuccessBody → Body
  | errorJson : (error : String) → (details : String) → Body
deriving Repr, DecidableEq

/-- An HTTP response: status code, headers, body. -/
structure Response where
  status : Nat
  headers : List (String × String)
  body : Body
deriving Repr, DecidableEq

/-- Fee-rate lookup (src/index.ts getPlanFeeRate, lines 220-228):
`feeRates[planType] || 0.05` on the object literal
`{starter: 0.05, professional: 0.03, enterprise: 0.01}`.  Bracket
access falls through to the prototype chain: an `Object.prototype`
property name yields the inherited member, which is truthy, so the
`|| 0.05` default never applies to it and the returned value is not a
number; every other unknown key yields `undefined` and defaults to
0.05. -/
def getPlanFeeRate (planType : String) : JsFeeRate :=
  if planType = "starter" then .num 0.05
  else if planType = "professional" then .num 0.03
  else if planType = "enterprise" then .num 0.01
  else if planType ∈ objectPrototypeKeys then .protoMember planType
  else .num 0.05

/-- `const planType = paymentData.meta?.plan_type || subscription.plan_type`
(src/index.ts line 76). -/
def planTypeOf (pd : PaymentData) (subscription : Subscription) : String :=
  jsOrString (pd.meta.bind fun m => m.plan_type) subscription.plan_type

/-- `const isTrial = paymentData.meta?.is_trial === true`
(src/index.ts line 77). -/
def isTrialOf (pd : PaymentData) : Bool :=
  decide ((pd.meta.bind fun m => m.is_trial) = some true)

/-- The subscription update payload (src/index.ts lines 116-124). -/
def subscriptionPayload (w : World) (pd : PaymentData)
    (subscription : Subscription) (userId : String) : SubscriptionUpdate :=
  { subscription_id := subscription.id
    user_id := userId
    status := "active"
    flutterwave_subscription_id := pd.id.map toString
    updated_at := w.now }

/-- The profile update payload (src/index.ts lines 132-139). -/
def profilePayload (w : World) (pd : PaymentData)
    (subscription : Subscription) (userId : String) : ProfileUpdate :=
  { profile_id := userId
    plan_type := planTypeOf pd subscription
    subscription_status := if isTrialOf pd then "trial" else "active"
    updated_at := w.now }

/-- The transaction insert payload (src/index.ts lines 147-160). -/
def transactionPayload (txRef : String) (pd : PaymentData)
    (subscription : Subscription) (userId : String) : TransactionRow :=
  { user_id := userId
    flutterwave_tx_ref := txRef
    flutterwave_tx_id := pd.id.map toString
    amount := pd.amount
    currency := pd.currency
    status := "completed"
    customer_email := pd.customer.email
    customer_name := pd.customer.name
    payment_method := pd.payment_type
    plan_fee_rate := getPlanFeeRate (planTypeOf pd subscription) }

/-- The notification insert payload (src/index.ts lines 168-182). -/
def notificationPayload (pd : PaymentData) (subscription : Subscription)
    (userId : String) : NotificationRow :=
  { user_id := userId
    type := "payment"
    title := "Subscription Activated"
    message := if isTrialOf pd
      then "Your " ++ planTypeOf pd subscription ++
        " plan trial has started! You have 7 days to try all features."
      else "Your " ++ planTypeOf pd subscription ++
        " plan subscription is now active. Welcome to PayLockr!"
    metadata :=
      { plan_type := planTypeOf pd subscription
        subscription_id := subscription.id
        is_trial := isTrialOf pd } }

/-- The success response body (src/index.ts lines 191-198). -/
def successBodyOf (pd : PaymentData) (subscription : Subscription)
    (userId : String) : SuccessBody :=
  { success := true
    subscription_id := subscription.id
    user_id := userId
    plan_type := planTypeOf pd subscription
    is_trial := isTrialOf pd
    message := "Subscription verified and activated successfully" }

/-- The four record writes and the success response, entered once the
user is resolved (src/index.ts lines 115-203).  `userWrites` carries a
provisioning call already made during user resolution.  The profile,
transaction and notification errors are only logged by the source
(`// Don't throw here...`), so the corresponding `World` fields do not
influence the result: those writes are attempted and the invocation
continues regardless of them. -/
def finish (w : World) (txRef : String) (pd : PaymentData)
    (subscription : Subscription) (userId : String) (userWrites : List Write) :
    Except String Response × Effects :=
  if ¬ w.updateSubscriptionOk then
    (.error "Failed to update subscription",
     ⟨true, true, userWrites ++ [.subscriptionUpdate (subscriptionPayload w pd subscription userId)]⟩)
  else
    (.ok { status := 200
           headers := jsonHeaders
           body := .successJson (successBodyOf pd subscription userId) },
     ⟨true, true, userWrites ++
       [.subscriptionUpdate (subscriptionPayload w pd subscription userId),
        .profileUpdate (profilePayload w pd subscription userId),
        .transactionInsert (transactionPayload txRef pd subscription userId),
        .notificationInsert (notificationPayload pd subscription userId)]⟩)

/-- User resolution (src/index.ts lines 79-113): reuse the
subscription's user when set, otherwise provision an account from the
pending-account payload.  Returns the thrown error or the resolved user
id, together with the provisioning call attempted (the call is made,
and on success the account exists, whether or not the rest of the
invocation succeeds). -/
def resolveUser (w : World) (pd : PaymentData)
    (subscription : Subscription) : Except String String × List Write :=
  if jsTruthy subscription.user_id then
    (.ok (subscription.user_id.getD ""), [])
  else
    match pd.meta.bind fun m => m.pending_user_data with
    | none => (.error "No user data found", [])
    | some pendingUserData =>
      let uc : UserCreate :=
        { email := pd.customer.email
          password := pendingUserData.password
          email_confirm := true
          full_name := pd.customer.name }
      if w.createUserError then
        (.error "Failed to create user account", [.createUserW uc])
      else
        (.ok w.createUserId, [.createUserW uc])

/-- User resolution followed by the writes (src/index.ts
lines 79-203). -/
def resolveAndFinish (w : World) (txRef : String) (pd : PaymentData)
    (subscription : Subscription) : Except String Response × Effects :=
  match resolveUser w pd subscription with
  | (.error msg, userWrites) => (.error msg, ⟨true, true, userWrites⟩)
  | (.ok userId, userWrites) => finish w txRef pd subscription userId userWrites

/-- Body of the source's `try` block (src/index.ts lines 26-203):
parameter guard, gateway verification, subscription lookup, then user
resolution and the writes.  An `.error` value is a thrown `Error`
carried to the `catch` block. -/
def tryHandler (req : Request) (w : World) : Except String Response × Effects :=
  if ¬ jsTruthy req.tx_ref then
    (.error "Missing transaction reference", ⟨false, false, []⟩)
  else
    let txRef := req.tx_ref.getD ""
    if w.gateway.status ≠ "success" ∨ w.gateway.data.status ≠ "successful" then
      (.error "Payment verification failed", ⟨true, false, []⟩)
    else
      if w.subError then
        (.error "Subscription not found", ⟨true, true, []⟩)
      else
        match w.subData with
        | none => (.error "Subscription not found", ⟨true, true, []⟩)
        | some subscription => resolveAndFinish w txRef w.gateway.data subscription

/-- The served request handler (src/index.ts lines 13-218): preflight
branch, method guard, then the `try`/`catch` whose `catch` produces the
uniform 500 failure response. -/
def handler (req : Request) (w : World) : Response × Effects :=
  if req.method = "OPTIONS" then
    ({ status := 200, headers := corsHeaders, body := .empty }, ⟨false, false, []⟩)
  else if req.method ≠ "GET" then
    ({ status := 405, headers := corsHeaders, body := .text "Method not allowed" },
     ⟨false, false, []⟩)
  else
    match tryHandler req w with
    | (.ok resp, eff) => (resp, eff)
    | (.error msg, eff) =>
      ({ status := 500
         headers := jsonHeaders
         body := .errorJson "Subscription verification failed" msg }, eff)

/-! Helper lemmas shared by the claims. -/

/-- On a GET request whose `try` block succeeds, the handler returns the
block's response and effects unchanged. -/
theorem handler_get_ok {req : Request} {w : World} {resp : Response} {eff : Effects}
    (hm : req.method = "GET") (h : tryHandler req w = (.ok resp, eff)) :
    handler req w = (resp, eff) := by
  unfold handler
  rw [hm]
  simp [h]

/-- On a GET request whose `try` block throws, the handler returns the
uniform 500 failure response around the thrown message. -/
theorem handler_get_error {req : Request} {w : World} {msg : String} {eff : Effects}
    (hm : req.method = "GET") (h : tryHandler req w = (.error msg, eff)) :
    handler req w =
      ({ status := 500
         headers := jsonHeaders
         body := .errorJson "Subscription verification failed" msg }, eff) := by
  unfold handler
  rw [hm]
  simp [h]

/-- The `try` block reaches the subscription stage when the transaction
reference is present and the gateway verification passes. -/
theorem tryHandler_verified {req : Request} {w : World}
    (ht : jsTruthy req.tx_ref = true)
    (hv1 : w.gateway.status = "success")
    (hv2 : w.gateway.data.status = "successful") :
    tryHandler req w =
      (if w.subError then
        (.error "Subscription not found", ⟨true, true, []⟩)
      else
        match w.subData with
        | none => (.error "Subscription not found", ⟨true, true, []⟩)
        | some subscription =>
          resolveAndFinish w (req.tx_ref.getD "") w.gateway.data subscription) := by
  unfold tryHandler
  rw [ht]
  simp [hv1, hv2]

/-- The writes attempted during user resolution are empty or a single
provisioning call. -/
theorem resolveUser_writes (w : World) (pd : PaymentData)
    (subscription : Subscription) :
    (resolveUser w pd subscription).2 = [] ∨
      ∃ uc, (resolveUser w pd subscription).2 = [Write.createUserW uc] := by
  unfold resolveUser
  split
  · exact Or.inl rfl
  · split
    · exact Or.inl rfl
    · split <;> exact Or.inr ⟨_, rfl⟩

/-- On the fully successful path the `try` block produces the success
response and the full write sequence. -/
theorem tryHandler_success {req : Request} {w : World}
    {subscription : Subscription} {userId : String} {userWrites : List Write}
    (ht : jsTruthy req.tx_ref = true)
    (hv1 : w.gateway.status = "success")
    (hv2 : w.gateway.data.status = "successful")
    (hse : w.subError = false)
    (hsd : w.subData = some subscription)
    (hres : resolveUser w w.gateway.data subscription = (.ok userId, userWrites))
    (hupd : w.updateSubscriptionOk = true) :
    tryHandler req w =
      (.ok { status := 200
             headers := jsonHeaders
             body := .successJson (successBodyOf w.gateway.data subscription userId) },
       ⟨true, true, userWrites ++
         [.subscriptionUpdate (subscriptionPayload w w.gateway.data subscription userId),
          .profileUpdate (profilePayload w w.gateway.data subscription userId),
          .transactionInsert (transactionPayload (req.tx_ref.getD "") w.gateway.data subscription userId),
          .notificationInsert (notificationPayload w.gateway.data subscription userId)]⟩) := by
  rw [tryHandler_verified ht hv1 hv2, hse, hsd]
  simp only [Bool.false_eq_true, if_false]
  unfold resolveAndFinish
  rw [hres]
  unfold finish
  rw [hupd]
  simp

/-- When the critical subscription update fails, the `try` block throws
with the provisioning call (if any) and the failed update as the only
attempted writes. -/
theorem tryHandler_subUpdateFail {req : Request} {w : World}
    {subscription : Subscription} {userId : String} {userWrites : List Write}
    (ht : jsTruthy req.tx_ref = true)
    (hv1 : w.gateway.status = "success")
    (hv2 : w.gateway.data.status = "successful")
    (hse : w.subError = false)
    (hsd : w.subData = some subscription)
    (hres : resolveUser w w.gateway.data subscription = (.ok userId, userWrites))
    (hupd : w.updateSubscriptionOk = false) :
    tryHandler req w =
      (.error "Failed to update subscription",
       ⟨true, true, userWrites ++
         [.subscriptionUpdate (subscriptionPayload w w.gateway.data subscription userId)]⟩) := by
  rw [tryHandler_verified ht hv1 hv2, hse, hsd]
  simp only [Bool.false_eq_true, if_false]
  unfold resolveAndFinish
  rw [hres]
  unfold finish
  rw [hupd]
  simp

/-- Every success response of the `try` block carries the JSON+CORS
headers. -/
theorem tryHandler_ok_headers {req : Request} {w : World} {resp : Response} {eff : Effects}
    (h : tryHandler req w = (.ok resp, eff)) : resp.headers = jsonHeaders := by
  unfold tryHandler at h
  split at h
  · simp at h
  · split at h
    · simp at h
    · split at h
      · simp at h
      · split at h
        · simp at h
        · unfold resolveAndFinish at h
          split at h
          · simp at h
          · unfold finish at h
            split at h
            · simp at h
            · simp only [Prod.mk.injEq, Except.ok.injEq] at h
              rw [← h.1]

/-- The handler's effect trace is empty (preflight and non-GET
branches) or exactly the `try` block's trace. -/
theorem handler_effects (req : Request) (w : World) :
    (handler req w).2 = ⟨false, false, []⟩ ∨
      (handler req w).2 = (tryHandler req w).2 := by
  unfold handler
  split
  · exact Or.inl rfl
  · split
    · exact Or.inl rfl
    · rcases h : tryHandler req w with ⟨res, eff⟩
      cases res <;> simp [h]

/-- Any transaction row the `try` block inserts is the transaction
payload computed from the looked-up subscription and resolved user. -/
theorem tryHandler_transactionInsert {req : Request} {w : World} {t : TransactionRow}
    (h : Write.transactionInsert t ∈ (tryHandler req w).2.writes) :
    ∃ subscription userId, w.subData = some subscription ∧
      t = transactionPayload (req.tx_ref.getD "") w.gateway.data subscription userId := by
  unfold tryHandler at h
  split at h
  · simp at h
  · split at h
    · simp at h
    · split at h
      · simp at h
      · split at h
        · simp at h
        · rename_i subscription hsd
          refine ⟨subscription, ?_⟩
          unfold resolveAndFinish at h
          rcases hres : resolveUser w w.gateway.data subscription with ⟨res, userWrites⟩
          have huw := resolveUser_writes w w.gateway.data subscription
          rw [hres] at h huw
          cases res with
          | error msg =>
            simp only at h
            rcases huw with huw | ⟨uc, huw⟩ <;> subst huw <;> simp at h
          | ok userId =>
            simp only at h
            unfold finish at h
            split at h <;>
              rcases huw with huw | ⟨uc, huw⟩ <;> subst huw <;> simp_all

/-! Concrete sample inputs used by the witnesses. -/

/-- Sample request for the C1 witness. -/
def reqC1 : Request := ⟨"GET", some "REF-1", some "failed", some "101"⟩

/-- Sample world for the C1 witness: the gateway reports failure. -/
def worldC1 : World :=
  ⟨⟨"error", ⟨"failed", ⟨"a@x.io", "Ada"⟩, none, none, 100, "USD", "card"⟩⟩,
   false, none, false, "", true, true, true, true, "t1"⟩

/-- Sample request for the C4 witness. -/
def reqC4 : Request := ⟨"GET", some "REF-4", some "successful", some "104"⟩

/-- Sample subscription for the C4 witness. -/
def subC4 : Subscription := ⟨"sub-4", some "user-4", "professional"⟩

/-- Sample world for the C4 witness: a fully successful invocation. -/
def worldC4 : World :=
  ⟨⟨"success", ⟨"successful", ⟨"b@x.io", "Bob"⟩, none, some 42, 200, "USD", "card"⟩⟩,
   false, some subC4, false, "", true, true, true, true, "t4"⟩

/-- The transaction row inserted during the C4 witness invocation. -/
def tC4 : TransactionRow := transactionPayload "REF-4" worldC4.gateway.data subC4 "user-4"

/-- Sample request for the C5 witness. -/
def reqC5 : Request := ⟨"GET", some "REF-5", some "successful", some "105"⟩

/-- Sample world for the C5 witness: verification passes but the
subscription lookup returns no row. -/
def worldC5 : World :=
  ⟨⟨"success", ⟨"successful", ⟨"c@x.io", "Cyd"⟩, none, some 7, 300, "USD", "card"⟩⟩,
   false, none, false, "", true, true, true, true, "t5"⟩

/-- Sample request for the C6 witness: no transaction reference. -/
def reqC6 : Request := ⟨"GET", none, none, none⟩

/-- Sample world for the C6 witness. -/
def worldC6 : World :=
  ⟨⟨"success", ⟨"successful", ⟨"d@x.io", "Dee"⟩, none, none, 100, "USD", "card"⟩⟩,
   false, none, false, "", true, true, true, true, "t6"⟩

/-- Sample world for the C8 counterexample and witness. -/
def worldC8 : World :=
  ⟨⟨"success", ⟨"successful", ⟨"e@x.io", "Eve"⟩, none, none, 100, "USD", "card"⟩⟩,
   false, none, false, "", true, true, true, true, "t8"⟩

/-! The claims. -/

/-- Claim C1: when the gateway verification response has overall status
other than "success" or per-transaction status other than "successful",
the handler fails with detail "Payment verification failed" and
performs no datastore writes. -/
theorem C1_verification_failure (req : Request) (w : World)
    (hm : req.method = "GET") (ht : jsTruthy req.tx_ref = true)
    (hv : w.gateway.status ≠ "success" ∨ w.gateway.data.status ≠ "successful") :
    (handler req w).1.status = 500 ∧
    (handler req w).1.body =
      .errorJson "Subscription verification failed" "Payment verification failed" ∧
    (handler req w).2.writes = [] := by
  have h : tryHandler req w =
      (.error "Payment verification failed", ⟨true, false, []⟩) := by
    unfold tryHandler
    rw [ht]
    simp [hv]
  rw [handler_get_error hm h]
  exact ⟨rfl, rfl, rfl⟩

/-- Witness for C1 at a concrete request and world. -/
theorem C1_verification_failure_witness :
    reqC1.method = "GET" ∧ jsTruthy reqC1.tx_ref = true ∧
    (worldC1.gateway.status ≠ "success" ∨ worldC1.gateway.data.status ≠ "successful") ∧
    ((handler reqC1 worldC1).1.status = 500 ∧
     (handler reqC1 worldC1).1.body =
       .errorJson "Subscription verification failed" "Payment verification failed" ∧
     (handler reqC1 worldC1).2.writes = []) :=
  ⟨rfl, by decide, Or.inl (by decide),
   C1_verification_failure reqC1 worldC1 rfl (by decide) (Or.inl (by decide))⟩

/-- Counterexample to C4 as stated: "toString" is none of the three
table keys, yet the source does not return the 0.05 default for it —
bracket access finds the inherited `Object.prototype.toString`
function, which is truthy, so `|| 0.05` never applies and the value
returned (and recorded in the transaction insert) is that function,
not the number 0.05. -/
theorem C4_counterexample :
    getPlanFeeRate "toString" = .protoMember "toString" ∧
    getPlanFeeRate "toString" ≠ .num 0.05 ∧
    "toString" ≠ "starter" ∧ "toString" ≠ "professional" ∧
    "toString" ≠ "enterprise" := by
  refine ⟨rfl, ?_, by decide, by decide, by decide⟩
  intro h
  rw [show getPlanFeeRate "toString" = .protoMember "toString" from rfl] at h
  exact JsFeeRate.noConfusion h

/-- Claim C4 (amended): the fee rate recorded in the transaction insert
is `starter` to 0.05, `professional` to 0.03, `enterprise` to 0.01, and
any other plan-type string to the default 0.05 — except an
`Object.prototype` property name such as "toString", for which the
recorded value is the inherited prototype member (a truthy non-number),
not 0.05; every transaction row the handler inserts carries the lookup
applied to the invocation's effective plan type. -/
theorem C4_fee_rate_table :
    (∀ s : String, getPlanFeeRate s =
      if s = "starter" then .num (0.05 : ℚ)
      else if s = "professional" then .num (0.03 : ℚ)
      else if s = "enterprise" then .num (0.01 : ℚ)
      else if s ∈ objectPrototypeKeys then .protoMember s
      else .num (0.05 : ℚ)) ∧
    (∀ (req : Request) (w : World) (t : TransactionRow),
      Write.transactionInsert t ∈ (handler req w).2.writes →
      ∃ subscription, w.subData = some subscription ∧
        t.plan_fee_rate = getPlanFeeRate (planTypeOf w.gateway.data subscription)) := by
  constructor
  · intro s
    rfl
  · intro req w t ht
    rcases handler_effects req w with he | he <;> rw [he] at ht
    · simp at ht
    · obtain ⟨subscription, userId, hsd, hrow⟩ := tryHandler_transactionInsert ht
      exact ⟨subscription, hsd, by rw [hrow]; rfl⟩

/-- Witness for C4 at a concrete successful invocation. -/
theorem C4_fee_rate_table_witness :
    Write.transactionInsert tC4 ∈ (handler reqC4 worldC4).2.writes ∧
    (∃ subscription, worldC4.subData = some subscription ∧
      tC4.plan_fee_rate = getPlanFeeRate (planTypeOf worldC4.gateway.data subscription)) := by
  have hs := @tryHandler_success reqC4 worldC4 subC4 "user-4" []
    (by decide) rfl rfl rfl rfl rfl rfl
  have hmem : Write.transactionInsert tC4 ∈ (handler reqC4 worldC4).2.writes := by
    rw [handler_get_ok rfl hs]
    simp [tC4, reqC4]
  exact ⟨hmem, C4_fee_rate_table.2 reqC4 worldC4 tC4 hmem⟩

/-- Claim C5: when the payment is verified but the `.single()`
subscription lookup fails (no row, several rows, or a query error — the
`subError` flag) or yields no row, the handler fails with detail
"Subscription not found" and performs no further writes. -/
theorem C5_subscription_not_found (req : Request) (w : World)
    (hm : req.method = "GET") (ht : jsTruthy req.tx_ref = true)
    (hv1 : w.gateway.status = "success")
    (hv2 : w.gateway.data.status = "successful")
    (hs : w.subError = true ∨ w.subData = none) :
    (handler req w).1.status = 500 ∧
    (handler req w).1.body =
      .errorJson "Subscription verification failed" "Subscription not found" ∧
    (handler req w).2.writes = [] := by
  have h : tryHandler req w = (.error "Subscription not found", ⟨true, true, []⟩) := by
    rw [tryHandler_verified ht hv1 hv2]
    rcases hs with hs | hs
    · rw [hs]
      simp
    · rw [hs]
      cases hw : w.subError <;> simp
  rw [handler_get_error hm h]
  exact ⟨rfl, rfl, rfl⟩

/-- Witness for C5 at a concrete request and world. -/
theorem C5_subscription_not_found_witness :
    reqC5.method = "GET" ∧ jsTruthy reqC5.tx_ref = true ∧
    worldC5.gateway.status = "success" ∧
    worldC5.gateway.data.status = "successful" ∧
    (worldC5.subError = true ∨ worldC5.subData = none) ∧
    ((handler reqC5 worldC5).1.status = 500 ∧
     (handler reqC5 worldC5).1.body =
       .errorJson "Subscription verification failed" "Subscription not found" ∧
     (handler reqC5 worldC5).2.writes = []) :=
  ⟨rfl, by decide, rfl, rfl, Or.inr rfl,
   C5_subscription_not_found reqC5 worldC5 rfl (by decide) rfl rfl (Or.inr rfl)⟩

/-- Claim C6: every fatal error thrown inside the `try` block — missing
parameter, verification failure, lookup failure, provisioning failure,
subscription-update failure — is reported with HTTP status 500 and a
JSON body whose error field is the fixed label "Subscription
verification failed" and whose details field is the thrown detail
string, with no per-kind differentiation. -/
theorem C6_uniform_failure_response (req : Request) (w : World)
    (msg : String) (eff : Effects)
    (hm : req.method = "GET") (h : tryHandler req w = (.error msg, eff)) :
    handler req w =
      ({ status := 500
         headers := jsonHeaders
         body := .errorJson "Subscription verification failed" msg }, eff) :=
  handler_get_error hm h

/-- Witness for C6 at a concrete request and world. -/
theorem C6_uniform_failure_response_witness :
    reqC6.method = "GET" ∧
    tryHandler reqC6 worldC6 =
      (.error "Missing transaction reference", ⟨false, false, []⟩) ∧
    handler reqC6 worldC6 =
      ({ status := 500
         headers := jsonHeaders
         body := .errorJson "Subscription verification failed"
           "Missing transaction reference" }, ⟨false, false, []⟩) :=
  ⟨rfl, rfl,
   C6_uniform_failure_response reqC6 worldC6 "Missing transaction reference"
     ⟨false, false, []⟩ rfl rfl⟩

/-- Counterexample to C8 as stated over every request: a preflight
(OPTIONS) request with no `tx_ref` parameter is answered with an empty
200 response, not a failure with details "Missing transaction
reference". -/
theorem C8_counterexample :
    (⟨"OPTIONS", none, none, none⟩ : Request).tx_ref = none ∧
    (handler ⟨"OPTIONS", none, none, none⟩ worldC8).1.status = 200 ∧
    (handler ⟨"OPTIONS", none, none, none⟩ worldC8).1.body = Body.empty := by
  decide

/-- Claim C8 (amended to GET requests): for every GET request whose
query string has no `tx_ref` parameter, the response is a failure whose
details field is exactly "Missing transaction reference", and no
gateway verification call, datastore lookup, or write occurs. -/
theorem C8_missing_tx_ref (req : Request) (w : World)
    (hm : req.method = "GET") (ht : req.tx_ref = none) :
    (handler req w).1.status = 500 ∧
    (handler req w).1.body =
      .errorJson "Subscription verification failed" "Missing transaction reference" ∧
    (handler req w).2 = ⟨false, false, []⟩ := by
  have h : tryHandler req w =
      (.error "Missing transaction reference", ⟨false, false, []⟩) := by
    unfold tryHandler
    rw [ht]
    simp [jsTruthy]
  rw [handler_get_error hm h]
  exact ⟨rfl, rfl, rfl⟩

/-- Witness for the amended C8 at a concrete request and world. -/
theorem C8_missing_tx_ref_witness :
    (⟨"GET", none, some "completed", some "108"⟩ : Request).method = "GET" ∧
    (⟨"GET", none, some "completed", some "108"⟩ : Request).tx_ref = none ∧
    ((handler ⟨"GET", none, some "completed", some "108"⟩ worldC8).1.status = 500 ∧
     (handler ⟨"GET", none, some "completed", some "108"⟩ worldC8).1.body =
       .errorJson "Subscription verification failed" "Missing transaction reference" ∧
     (handler ⟨"GET", none, some "completed", some "108"⟩ worldC8).2 = ⟨false, false, []⟩) :=
  ⟨rfl, rfl, C8_missing_tx_ref ⟨"GET", none, some "completed", some "108"⟩ worldC8 rfl rfl⟩

/-- Claim C9: every response the handler produces — preflight,
method-rejection, success, failure — carries both permissive
cross-origin headers. -/
theorem C9_cors_on_every_response (req : Request) (w : World) :
    ("Access-Control-Allow-Origin", "*") ∈ (handler req w).1.headers ∧
    ("Access-Control-Allow-Headers", "authorization, x-client-info, apikey, content-type")
      ∈ (handler req w).1.headers := by
  unfold handler
  split
  · simp [corsHeaders]
  · split
    · simp [corsHeaders]
    · rcases h : tryHandler req w with ⟨res, eff⟩
      cases res with
      | error msg => simp [h, jsonHeaders, corsHeaders]
      | ok resp =>
        have hh := tryHandler_ok_headers h
        simp [h, hh, jsonHeaders, corsHeaders]


/-- Sample request for the C2 witness. -/
def reqC2 : Request := ⟨"GET", some "REF-2", some "successful", some "102"⟩

/-- Sample payment metadata for the C2 witness: carries a
pending-account payload. -/
def metaC2 : Meta := ⟨some "starter", some true, some ⟨"pw-2"⟩⟩

/-- Sample subscription for the C2 witness: no user attached yet. -/
def subC2 : Subscription := ⟨"sub-2", none, "professional"⟩

/-- Sample world for the C2 witness: provisioning succeeds but the
subscription update fails. -/
def worldC2 : World :=
  ⟨⟨"success", ⟨"successful", ⟨"f@x.io", "Fay"⟩, some metaC2, some 9, 400, "USD", "card"⟩⟩,
   false, some subC2, false, "new-user-2", false, true, true, true, "t2"⟩

/-- The provisioning payload of the C2 witness invocation. -/
def ucC2 : UserCreate := ⟨"f@x.io", "pw-2", true, "Fay"⟩

/-- Claim C2: when the subscription-status update reports an error the
whole invocation fails with the failure response, the profile update,
transaction insert and notification insert are not attempted, and no
compensating rollback is performed: a provisioning call made during
user resolution stays in the trace (the created account remains). -/
theorem C2_subscription_update_fatal (req : Request) (w : World)
    (subscription : Subscription) (userId : String) (userWrites : List Write)
    (hm : req.method = "GET") (ht : jsTruthy req.tx_ref = true)
    (hv1 : w.gateway.status = "success")
    (hv2 : w.gateway.data.status = "successful")
    (hse : w.subError = false)
    (hsd : w.subData = some subscription)
    (hres : resolveUser w w.gateway.data subscription = (.ok userId, userWrites))
    (hupd : w.updateSubscriptionOk = false) :
    (handler req w).1.status = 500 ∧
    (handler req w).1.body =
      .errorJson "Subscription verification failed" "Failed to update subscription" ∧
    (∀ pu, Write.profileUpdate pu ∉ (handler req w).2.writes) ∧
    (∀ t, Write.transactionInsert t ∉ (handler req w).2.writes) ∧
    (∀ n, Write.notificationInsert n ∉ (handler req w).2.writes) ∧
    (∀ uc, Write.createUserW uc ∈ userWrites →
      Write.createUserW uc ∈ (handler req w).2.writes) := by
  have h := tryHandler_subUpdateFail ht hv1 hv2 hse hsd hres hupd
  rw [handler_get_error hm h]
  have huw := resolveUser_writes w w.gateway.data subscription
  rw [hres] at huw
  refine ⟨rfl, rfl, ?_, ?_, ?_, ?_⟩ <;>
    rcases huw with huw | ⟨uc, huw⟩ <;> subst huw <;> simp

/-- Witness for C2 at a concrete invocation in which an account is
provisioned and then the subscription update fails. -/
theorem C2_subscription_update_fatal_witness :
    resolveUser worldC2 worldC2.gateway.data subC2 =
      (.ok "new-user-2", [Write.createUserW ucC2]) ∧
    worldC2.updateSubscriptionOk = false ∧
    ((handler reqC2 worldC2).1.status = 500 ∧
     (handler reqC2 worldC2).1.body =
       .errorJson "Subscription verification failed" "Failed to update subscription" ∧
     (∀ pu, Write.profileUpdate pu ∉ (handler reqC2 worldC2).2.writes) ∧
     (∀ t, Write.transactionInsert t ∉ (handler reqC2 worldC2).2.writes) ∧
     (∀ n, Write.notificationInsert n ∉ (handler reqC2 worldC2).2.writes) ∧
     (∀ uc, Write.createUserW uc ∈ [Write.createUserW ucC2] →
       Write.createUserW uc ∈ (handler reqC2 worldC2).2.writes)) :=
  ⟨rfl, rfl,
   C2_subscription_update_fatal reqC2 worldC2 subC2 "new-user-2"
     [Write.createUserW ucC2] rfl (by decide) rfl rfl rfl rfl rfl rfl⟩

/-- Sample request for the C3 witness. -/
def reqC3 : Request := ⟨"GET", some "REF-3", some "successful", some "103"⟩

/-- Sample subscription for the C3 witness. -/
def subC3 : Subscription := ⟨"sub-3", some "user-3", "enterprise"⟩

/-- Sample world for the C3 witness: the subscription update succeeds
while the profile update, transaction insert and notification insert
all report errors. -/
def worldC3 : World :=
  ⟨⟨"success", ⟨"successful", ⟨"g@x.io", "Gus"⟩, none, some 11, 500, "USD", "card"⟩⟩,
   false, some subC3, false, "", true, false, false, false, "t3"⟩

/-- Claim C3: once the subscription update has succeeded, errors of the
profile update, transaction insert or notification insert do not abort
the invocation: the handler's result does not depend on those three
error flags at all (they are only logged), every later write is still
attempted, and the response still reports overall success. -/
theorem C3_noncritical_errors_do_not_abort (req : Request) (w : World)
    (subscription : Subscription) (userId : String) (userWrites : List Write)
    (hm : req.method = "GET") (ht : jsTruthy req.tx_ref = true)
    (hv1 : w.gateway.status = "success")
    (hv2 : w.gateway.data.status = "successful")
    (hse : w.subError = false)
    (hsd : w.subData = some subscription)
    (hres : resolveUser w w.gateway.data subscription = (.ok userId, userWrites))
    (hupd : w.updateSubscriptionOk = true) :
    (∀ b₁ b₂ b₃ : Bool,
      handler req
        { w with
          updateProfileOk := b₁
          insertTransactionOk := b₂
          insertNotificationOk := b₃ } = handler req w) ∧
    (∃ pu, Write.profileUpdate pu ∈ (handler req w).2.writes) ∧
    (∃ t, Write.transactionInsert t ∈ (handler req w).2.writes) ∧
    (∃ n, Write.notificationInsert n ∈ (handler req w).2.writes) ∧
    (∃ sb, (handler req w).1.body = .successJson sb ∧ sb.success = true) ∧
    (handler req w).1.status = 200 := by
  constructor
  · intro b₁ b₂ b₃
    rcases w with ⟨g, se, sd, cue, cui, us, up, it, inn, tnow⟩
    rfl
  · have h := tryHandler_success ht hv1 hv2 hse hsd hres hupd
    rw [handler_get_ok hm h]
    exact ⟨⟨profilePayload w w.gateway.data subscription userId, by simp⟩,
      ⟨transactionPayload (req.tx_ref.getD "") w.gateway.data subscription userId, by simp⟩,
      ⟨notificationPayload w.gateway.data subscription userId, by simp⟩,
      ⟨successBodyOf w.gateway.data subscription userId, rfl, rfl⟩, rfl⟩

/-- Witness for C3 at a concrete invocation in which all three
non-critical writes report errors. -/
theorem C3_noncritical_errors_do_not_abort_witness :
    worldC3.updateSubscriptionOk = true ∧
    worldC3.updateProfileOk = false ∧
    worldC3.insertTransactionOk = false ∧
    worldC3.insertNotificationOk = false ∧
    ((∀ b₁ b₂ b₃ : Bool,
      handler reqC3
        { worldC3 with
          updateProfileOk := b₁
          insertTransactionOk := b₂
          insertNotificationOk := b₃ } = handler reqC3 worldC3) ∧
     (∃ pu, Write.profileUpdate pu ∈ (handler reqC3 worldC3).2.writes) ∧
     (∃ t, Write.transactionInsert t ∈ (handler reqC3 worldC3).2.writes) ∧
     (∃ n, Write.notificationInsert n ∈ (handler reqC3 worldC3).2.writes) ∧
     (∃ sb, (handler reqC3 worldC3).1.body = .successJson sb ∧ sb.success = true) ∧
     (handler reqC3 worldC3).1.status = 200) :=
  ⟨rfl, rfl, rfl, rfl,
   C3_noncritical_errors_do_not_abort reqC3 worldC3 subC3 "user-3" []
     rfl (by decide) rfl rfl rfl rfl rfl rfl⟩

/-- Sample request for the C7 witness. -/
def reqC7 : Request := ⟨"GET", some "REF-7", some "successful", some "107"⟩

/-- Sample payment metadata for the C7 witness: trial flag set, with a
pending-account payload. -/
def metaC7 : Meta := ⟨some "starter", some true, some ⟨"pw-7"⟩⟩

/-- Sample subscription for the C7 witness: no user attached yet. -/
def subC7 : Subscription := ⟨"sub-7", none, "professional"⟩

/-- Sample world for the C7 witness: a fully successful trial
invocation that provisions an account. -/
def worldC7 : World :=
  ⟨⟨"success", ⟨"successful", ⟨"h@x.io", "Hal"⟩, some metaC7, some 13, 600, "USD", "card"⟩⟩,
   false, some subC7, false, "new-user-7", true, true, true, true, "t7"⟩

/-- The provisioning payload of the C7 witness invocation. -/
def ucC7 : UserCreate := ⟨"h@x.io", "pw-7", true, "Hal"⟩

/-- Claim C7: on a successful invocation the profile update sets
subscription status to "trial" exactly when the payment's trial flag is
set (`meta?.is_trial === true`) and to "active" otherwise, and the
success body's `is_trial` field equals that same flag. -/
theorem C7_trial_status (req : Request) (w : World)
    (subscription : Subscription) (userId : String) (userWrites : List Write)
    (hm : req.method = "GET") (ht : jsTruthy req.tx_ref = true)
    (hv1 : w.gateway.status = "success")
    (hv2 : w.gateway.data.status = "successful")
    (hse : w.subError = false)
    (hsd : w.subData = some subscription)
    (hres : resolveUser w w.gateway.data subscription = (.ok userId, userWrites))
    (hupd : w.updateSubscriptionOk = true) :
    Write.profileUpdate (profilePayload w w.gateway.data subscription userId)
      ∈ (handler req w).2.writes ∧
    (∀ pu, Write.profileUpdate pu ∈ (handler req w).2.writes →
      pu.subscription_status = (if isTrialOf w.gateway.data then "trial" else "active") ∧
      (pu.subscription_status = "trial" ↔ isTrialOf w.gateway.data = true)) ∧
    (∀ sb, (handler req w).1.body = .successJson sb →
      sb.is_trial = isTrialOf w.gateway.data) := by
  have h := tryHandler_success ht hv1 hv2 hse hsd hres hupd
  have huw := resolveUser_writes w w.gateway.data subscription
  rw [hres] at huw
  rw [handler_get_ok hm h]
  refine ⟨by simp, ?_, ?_⟩
  · intro pu hpu
    rcases huw with huw | ⟨uc, huw⟩ <;> subst huw <;> simp at hpu <;> subst hpu <;>
      cases htr : isTrialOf w.gateway.data <;> simp [profilePayload, htr]
  · intro sb hsb
    simp only [Body.successJson.injEq] at hsb
    subst hsb
    rfl

/-- Witness for C7 at a concrete trial invocation. -/
theorem C7_trial_status_witness :
    isTrialOf worldC7.gateway.data = true ∧
    resolveUser worldC7 worldC7.gateway.data subC7 =
      (.ok "new-user-7", [Write.createUserW ucC7]) ∧
    (Write.profileUpdate (profilePayload worldC7 worldC7.gateway.data subC7 "new-user-7")
       ∈ (handler reqC7 worldC7).2.writes ∧
     (∀ pu, Write.profileUpdate pu ∈ (handler reqC7 worldC7).2.writes →
       pu.subscription_status =
         (if isTrialOf worldC7.gateway.data then "trial" else "active") ∧
       (pu.subscription_status = "trial" ↔ isTrialOf worldC7.gateway.data = true)) ∧
     (∀ sb, (handler reqC7 worldC7).1.body = .successJson sb →
       sb.is_trial = isTrialOf worldC7.gateway.data)) :=
  ⟨rfl, rfl,
   C7_trial_status reqC7 worldC7 subC7 "new-user-7" [Write.createUserW ucC7]
     rfl (by decide) rfl rfl rfl rfl rfl rfl⟩

/-- Sample request for the C10 witness. -/
def reqC10 : Request := ⟨"GET", some "REF-10", some "successful", some "110"⟩

/-- Sample payment metadata for the C10 witness: its plan type
disagrees with the one stored on the subscription row. -/
def metaC10 : Meta := ⟨some "starter", none, none⟩

/-- Sample subscription for the C10 witness: plan type differs from the
payment metadata's. -/
def subC10 : Subscription := ⟨"sub-10", some "user-10", "professional"⟩

/-- Sample world for the C10 witness: a fully successful invocation in
which both plan-type sources are present and disagree. -/
def worldC10 : World :=
  ⟨⟨"success", ⟨"successful", ⟨"i@x.io", "Ida"⟩, some metaC10, some 17, 700, "USD", "card"⟩⟩,
   false, some subC10, false, "", true, true, true, true, "t10"⟩

/-- Claim C10: on a successful invocation the plan type used for the
profile update, the fee-rate lookup, the notification and the success
response is the payment metadata's `plan_type` when present and truthy,
and otherwise the subscription row's plan type; the metadata takes
precedence whenever it is truthy, even if both are present and
disagree. -/
theorem C10_plan_type_precedence (req : Request) (w : World)
    (subscription : Subscription) (userId : String) (userWrites : List Write)
    (hm : req.method = "GET") (ht : jsTruthy req.tx_ref = true)
    (hv1 : w.gateway.status = "success")
    (hv2 : w.gateway.data.status = "successful")
    (hse : w.subError = false)
    (hsd : w.subData = some subscription)
    (hres : resolveUser w w.gateway.data subscription = (.ok userId, userWrites))
    (hupd : w.updateSubscriptionOk = true) :
    (∀ s, (w.gateway.data.meta.bind fun m => m.plan_type) = some s → s ≠ "" →
      planTypeOf w.gateway.data subscription = s) ∧
    ((w.gateway.data.meta.bind fun m => m.plan_type) = none ∨
       (w.gateway.data.meta.bind fun m => m.plan_type) = some "" →
      planTypeOf w.gateway.data subscription = subscription.plan_type) ∧
    (∀ pu, Write.profileUpdate pu ∈ (handler req w).2.writes →
      pu.plan_type = planTypeOf w.gateway.data subscription) ∧
    (∀ t, Write.transactionInsert t ∈ (handler req w).2.writes →
      t.plan_fee_rate = getPlanFeeRate (planTypeOf w.gateway.data subscription)) ∧
    (∀ n, Write.notificationInsert n ∈ (handler req w).2.writes →
      n.metadata.plan_type = planTypeOf w.gateway.data subscription) ∧
    (∀ sb, (handler req w).1.body = .successJson sb →
      sb.plan_type = planTypeOf w.gateway.data subscription) := by
  have h := tryHandler_success ht hv1 hv2 hse hsd hres hupd
  have huw := resolveUser_writes w w.gateway.data subscription
  rw [hres] at huw
  rw [handler_get_ok hm h]
  refine ⟨?_, ?_, ?_, ?_, ?_, ?_⟩
  · intro s hs hns
    unfold planTypeOf jsOrString
    rw [hs]
    simp [hns]
  · intro hsrc
    unfold planTypeOf jsOrString
    rcases hsrc with hsrc | hsrc <;> simp [hsrc]
  · intro pu hpu
    rcases huw with huw | ⟨uc, huw⟩ <;> subst huw <;> simp at hpu <;> subst hpu <;> rfl
  · intro t htr
    rcases huw with huw | ⟨uc, huw⟩ <;> subst huw <;> simp at htr <;> subst htr <;> rfl
  · intro n hn
    rcases huw with huw | ⟨uc, huw⟩ <;> subst huw <;> simp at hn <;> subst hn <;> rfl
  · intro sb hsb
    simp only [Body.successJson.injEq] at hsb
    subst hsb
    rfl

/-- Witness for C10 at a concrete invocation in which the payment
metadata's plan type overrides the subscription row's. -/
theorem C10_plan_type_precedence_witness :
    (worldC10.gateway.data.meta.bind fun m => m.plan_type) = some "starter" ∧
    subC10.plan_type = "professional" ∧
    planTypeOf worldC10.gateway.data subC10 = "starter" ∧
    ((∀ s, (worldC10.gateway.data.meta.bind fun m => m.plan_type) = some s → s ≠ "" →
        planTypeOf worldC10.gateway.data subC10 = s) ∧
     ((worldC10.gateway.data.meta.bind fun m => m.plan_type) = none ∨
        (worldC10.gateway.data.meta.bind fun m => m.plan_type) = some "" →
       planTypeOf worldC10.gateway.data subC10 = subC10.plan_type) ∧
     (∀ pu, Write.profileUpdate pu ∈ (handler reqC10 worldC10).2.writes →
       pu.plan_type = planTypeOf worldC10.gateway.data subC10) ∧
     (∀ t, Write.transactionInsert t ∈ (handler reqC10 worldC10).2.writes →
       t.plan_fee_rate = getPlanFeeRate (planTypeOf worldC10.gateway.data subC10)) ∧
     (∀ n, Write.notificationInsert n ∈ (handler reqC10 worldC10).2.writes →
       n.metadata.plan_type = planTypeOf worldC10.gateway.data subC10) ∧
     (∀ sb, (handler reqC10 worldC10).1.body = .successJson sb →
       sb.plan_type = planTypeOf worldC10.gateway.data subC10)) :=
  ⟨rfl, rfl, rfl,
   C10_plan_type_precedence reqC10 worldC10 subC10 "user-10" []
     rfl (by decide) rfl rfl rfl rfl rfl rfl⟩

end PayLockr
